import Mathlib

/-!
Shallow embedding of the two-player Discord scoreboard bot
(`src/discord-scoreboard-bot.py`).

The data model (`Round`, `Board`), the name validator, the fixed-width
table renderer and the command handlers (`board_start`, `board_add`,
`board_edit`, `board_rename`, `board_zero_style`) are translated from the
Python source.  Python string operations are modelled on `List Char`
(`str` indexing, `len`, `rjust` all count code points, as Lean's
`String.toList` does).  Python truthiness of `Optional[int]` values
(`None` and `0` are falsy) is modelled by `msgFalsy`.

Each handler reads the record stored under the context key (an
`Option Board`), and returns `Except String Board`: `.ok b` means the
handler persists `b` under the key, `.error m` means the handler returns
early with user message `m` and performs no persistence write.  The
external message I/O (`fetch_message` succeeding, or raising `NotFound`
followed by a fresh `send`) is modelled by the two parameters
`fetchOk : Bool` and `freshId : Int`: on the `NotFound` path the handler
stores the freshly sent message's id.
-/

/-- Space character, used for Python-style right justification padding. -/
def spaceChar : Char := Char.ofNat 32

/-- Python `s.rjust(w)` / format `f"{s:>{w}}"`: left-pad `s` with spaces to
width `w` (no-op when `s` is already at least `w` characters). -/
def pyRjust (w : Int) (s : String) : String :=
  String.mk (List.replicate (w - (s.length : Int)).toNat spaceChar) ++ s

/-- Python `c * n` for a single character `c` (empty for `n ≤ 0`). -/
def pyRepeat (c : Char) (n : Int) : String :=
  String.mk (List.replicate n.toNat c)

/-- Python `s[:n]` on code points. -/
def pyTake (n : Nat) (s : String) : String :=
  String.mk (s.toList.take n)

/-- Python `str.lower()`.  The handlers only compare the lowered string
against the ASCII tokens `"dash"` and `"zero"`, whose letters have no
non-ASCII upper-case variants, so the ASCII `Char.toLower` map agrees
with Python's Unicode lowering on every comparison made here. -/
def pyLower (s : String) : String :=
  String.mk (s.toList.map Char.toLower)

/-- Python `f"{x:+d}"`: decimal with an explicit sign (`+0` for zero). -/
def pySignedFmt (x : Int) : String :=
  if 0 ≤ x then "+" ++ toString x else toString x

/-- One round of play: `Round(a, b)` from the source. -/
structure Round where
  a : Int
  b : Int
deriving DecidableEq, Repr

/-- The `Board` dataclass from the source: per-context score record. -/
structure Board where
  title : String
  player_a : String
  player_b : String
  rounds : List Round := []
  message_id : Option Int := none
  COL_RND : Int := 5
  COL_PLY : Int := 10
  zero_as_dash : Bool := true
deriving DecidableEq, Repr

/-- Python truthiness test `not m` for `m : Optional[int]`:
`None` and `0` are falsy, every other integer is truthy. -/
def msgFalsy : Option Int → Bool
  | none => true
  | some i => i == 0

/-- Message id after the `try: fetch/edit  except NotFound: send` block:
unchanged when the fetch succeeds, the freshly sent id otherwise. -/
def msgAfter (fetchOk : Bool) (freshId : Int) (old : Option Int) : Option Int :=
  if fetchOk then old else some freshId

/-- Python `title or "戦績ボード"`: `None` and the empty string both fall
back to the default title. -/
def pyTitleOr (t : Option String) : String :=
  match t with
  | none => "戦績ボード"
  | some s => if s == "" then "戦績ボード" else s

/-- `Board._is_ascii`: Python `s.encode("ascii")` succeeds exactly when
every code point is below 128. -/
def Board._is_ascii (s : String) : Bool :=
  s.toList.all (fun c => c.toNat ≤ 127)

/-- `Board._validate_name`: `None` passes through, non-ASCII is rejected,
ASCII is truncated to its first 8 characters (`name[:8]`). -/
def Board._validate_name (name : Option String) : Option String :=
  match name with
  | none => none
  | some s => if Board._is_ascii s then some (pyTake 8 s) else none

/-- `Board.totals`: sum of the `a` scores and sum of the `b` scores. -/
def Board.totals (bd : Board) : Int × Int :=
  ((bd.rounds.map Round.a).sum, (bd.rounds.map Round.b).sum)

/-- `fmt_name` in `Board.render`: drop non-ASCII code points
(`encode("ascii", "ignore")`), truncate to 8, right-justify in 8, and
surround with one space on each side. -/
def Board.fmt_name (name : String) : String :=
  let safe := String.mk (name.toList.filter (fun c => c.toNat ≤ 127))
  " " ++ pyRjust 8 (pyTake 8 safe) ++ " "

/-- `fmt_rnd` in `Board.render`: right-justify in `COL_RND - 1`, one
trailing space. -/
def Board.fmt_rnd (bd : Board) (text : String) : String :=
  pyRjust (bd.COL_RND - 1) text ++ " "

/-- Text of an unsigned score cell: `-` or `0` for zero depending on
`zero_as_dash`, plain decimal otherwise. -/
def Board.scoreText (bd : Board) (x : Int) : String :=
  if x = 0 then (if bd.zero_as_dash then "-" else "0") else toString x

/-- `fmt_score_val` in `Board.render`: score text right-justified in
`COL_PLY - 1`, one trailing space. -/
def Board.fmt_score_val (bd : Board) (x : Int) : String :=
  pyRjust (bd.COL_PLY - 1) (bd.scoreText x) ++ " "

/-- `fmt_score_signed` in `Board.render`: always-signed score text
right-justified in `COL_PLY - 1`, one trailing space. -/
def Board.fmt_score_signed (bd : Board) (x : Int) : String :=
  pyRjust (bd.COL_PLY - 1) (pySignedFmt x) ++ " "

/-- `hline` in `Board.render` (without the trailing newline). -/
def Board.hline (bd : Board) : String :=
  "+" ++ pyRepeat '-' bd.COL_RND ++ "+" ++ pyRepeat '-' bd.COL_PLY ++ "+"
    ++ pyRepeat '-' bd.COL_PLY ++ "+"

/-- Header row of the table. -/
def Board.headerLine (bd : Board) : String :=
  "|" ++ bd.fmt_rnd "RND" ++ "|" ++ Board.fmt_name bd.player_a ++ "|"
    ++ Board.fmt_name bd.player_b ++ "|"

/-- One round row of the table (round number `i`, 1-based). -/
def Board.roundLine (bd : Board) (i : Nat) (r : Round) : String :=
  "|" ++ bd.fmt_rnd (toString i) ++ "|" ++ bd.fmt_score_val r.a ++ "|"
    ++ bd.fmt_score_val r.b ++ "|"

/-- Round rows, numbered from `i` (the source's `enumerate(rounds, 1)`). -/
def Board.roundLines (bd : Board) : Nat → List Round → List String
  | _, [] => []
  | i, r :: rs => bd.roundLine i r :: bd.roundLines (i + 1) rs

/-- Totals row (`Σ`). -/
def Board.totalsLine (bd : Board) : String :=
  "|" ++ bd.fmt_rnd "Σ" ++ "|" ++ bd.fmt_score_val bd.totals.1 ++ "|"
    ++ bd.fmt_score_val bd.totals.2 ++ "|"

/-- Difference row (`Δ`): left cell `+diff`, right cell `-diff`, both
always signed. -/
def Board.deltaLine (bd : Board) : String :=
  "|" ++ bd.fmt_rnd "Δ" ++ "|" ++ bd.fmt_score_signed (bd.totals.1 - bd.totals.2)
    ++ "|" ++ bd.fmt_score_signed (-(bd.totals.1 - bd.totals.2)) ++ "|"

/-- All body lines of the rendered table, in order: rule, header, rule,
round rows, rule, totals row, difference row, rule. -/
def Board.tableLines (bd : Board) : List String :=
  [bd.hline, bd.headerLine, bd.hline] ++ bd.roundLines 1 bd.rounds
    ++ [bd.hline, bd.totalsLine, bd.deltaLine, bd.hline]

/-- `Board.render`: table lines joined with newlines, wrapped in the
title line and a code fence. -/
def Board.render (bd : Board) : String :=
  let table := String.join (bd.tableLines.map (fun l => l ++ "\n"))
  let t := "【" ++ bd.title ++ "】 " ++ bd.player_a ++ " vs " ++ bd.player_b
  "**" ++ t ++ "**\n```\n" ++ table ++ "```"

/-- Serialized form of a `Round` (`asdict`): exactly the two keys. -/
structure RoundDict where
  a : Int
  b : Int
deriving DecidableEq, Repr

/-- `Round(**r)` applied to a round dictionary. -/
def roundOfDict (d : RoundDict) : Round := ⟨d.a, d.b⟩

/-- `asdict` applied to a `Round`. -/
def dictOfRound (r : Round) : RoundDict := ⟨r.a, r.b⟩

/-- Serialized form of a `Board`: the JSON object written by `to_dict`.
Every field is optional, since `from_dict` reads each key with `d.get`
and a default; `message_id`'s default is `None`, so a missing key and a
stored `null` coincide in one `Option Int`. -/
structure BoardDict where
  title : Option String
  player_a : Option String
  player_b : Option String
  rounds : Option (List RoundDict)
  message_id : Option Int
  COL_RND : Option Int
  COL_PLY : Option Int
  zero_as_dash : Option Bool
deriving DecidableEq, Repr

/-- `Board.from_dict`: read every field with its `d.get` default. -/
def Board.from_dict (d : BoardDict) : Board :=
  { title := d.title.getD "Scoreboard"
    player_a := d.player_a.getD "PlayerA"
    player_b := d.player_b.getD "PlayerB"
    rounds := (d.rounds.getD []).map roundOfDict
    message_id := d.message_id
    COL_RND := d.COL_RND.getD 5
    COL_PLY := d.COL_PLY.getD 10
    zero_as_dash := d.zero_as_dash.getD true }

/-- `Board.to_dict`: `asdict`, with `rounds` itself a list of round
dictionaries.  Every key is written. -/
def Board.to_dict (bd : Board) : BoardDict :=
  { title := some bd.title
    player_a := some bd.player_a
    player_b := some bd.player_b
    rounds := some (bd.rounds.map dictOfRound)
    message_id := bd.message_id
    COL_RND := some bd.COL_RND
    COL_PLY := some bd.COL_PLY
    zero_as_dash := some bd.zero_as_dash }

/-- User message of `board_start` when a name fails validation. -/
def nameErrMsg : String :=
  "名前は **半角ASCIIのみ**（最大8文字）にしてください。全角は使用できません。\n例: `Reo`, `Haruna`, `Player01`"

/-- User message of `board_start` when an active board already exists. -/
def alreadyMsg : String :=
  "既にボードがあります。/board_show で確認、/board_reset で初期化できます。"

/-- User message of `board_add` when there is no usable board. -/
def startFirstMsg : String :=
  "先に /board_start でボードを作成してください。"

/-- User message of several handlers when no board exists. -/
def noBoardMsg : String :=
  "このチャンネルにはボードがありません。/board_start で作成してください。"

/-- User message of `board_rename` when `player_a` fails validation. -/
def nameAErrMsg : String :=
  "player_a は半角ASCIIのみ（最大8文字）。全角は不可です。"

/-- User message of `board_rename` when `player_b` fails validation. -/
def nameBErrMsg : String :=
  "player_b は半角ASCIIのみ（最大8文字）。全角は不可です。"

/-- User message of `board_zero_style` for an unknown style token. -/
def styleErrMsg : String :=
  "style は \x27dash\x27 または \x27zero\x27 を指定してください。"

/-- Out-of-range message of `board_edit`, naming the requested round and
the current maximum round number. -/
def rangeMsg (rn : Int) (maxRnd : Nat) : String :=
  "ラウンド " ++ toString rn ++ " は存在しません。現在の最大ラウンドは "
    ++ toString maxRnd ++ " です。"

/-- Guard of `board_start`: Python
`existing and (existing.rounds or existing.message_id)`. -/
def activeGuard : Option Board → Bool
  | none => false
  | some e => !e.rounds.isEmpty || !msgFalsy e.message_id

/-- `board_start`: validate both names, reject if an existing board has
rounds or a truthy message id, else create a fresh record (empty rounds,
default widths, dash zero-style), publish it and store the sent
message's id. -/
def board_start (existing : Option Board) (player_a player_b : String)
    (title : Option String) (freshId : Int) : Except String Board :=
  match Board._validate_name (some player_a), Board._validate_name (some player_b) with
  | some va, some vb =>
    if activeGuard existing then .error alreadyMsg
    else .ok { title := pyTitleOr title, player_a := va, player_b := vb,
               rounds := [], message_id := some freshId,
               COL_RND := 5, COL_PLY := 10, zero_as_dash := true }
  | _, _ => .error nameErrMsg

/-- `board_add`: reject unless a board exists with a truthy message id
(`if not board or not board.message_id`), else append `Round(a, b)`. -/
def board_add (stored : Option Board) (a b : Int) (fetchOk : Bool)
    (freshId : Int) : Except String Board :=
  match stored with
  | none => .error startFirstMsg
  | some bd =>
    if msgFalsy bd.message_id then .error startFirstMsg
    else .ok { bd with
               rounds := bd.rounds ++ [⟨a, b⟩],
               message_id := msgAfter fetchOk freshId bd.message_id }

/-- `board_edit`: reject when no board or no rounds, reject out-of-range
round numbers naming the current maximum, else overwrite the supplied
fields of round `round_no` in place. -/
def board_edit (stored : Option Board) (round_no : Int) (a b : Option Int)
    (fetchOk : Bool) (freshId : Int) : Except String Board :=
  match stored with
  | none => .error noBoardMsg
  | some bd =>
    if bd.rounds.isEmpty then .error noBoardMsg
    else if h : round_no < 1 ∨ (bd.rounds.length : Int) < round_no then
      .error (rangeMsg round_no bd.rounds.length)
    else
      have hidx : (round_no - 1).toNat < bd.rounds.length := by
        push_neg at h
        omega
      let r := bd.rounds.get ⟨(round_no - 1).toNat, hidx⟩
      .ok { bd with
            rounds := bd.rounds.set (round_no - 1).toNat
              { a := a.getD r.a, b := b.getD r.b },
            message_id := msgAfter fetchOk freshId bd.message_id }

/-- `board_rename`: validate and apply `player_a`, then `player_b`
(returning early, with nothing persisted, on the first invalid one),
then apply a truthy (non-`None`, non-empty) title. -/
def board_rename (stored : Option Board) (player_a player_b title : Option String)
    (fetchOk : Bool) (freshId : Int) : Except String Board :=
  match stored with
  | none => .error noBoardMsg
  | some bd => do
    let b1 ← match player_a with
      | none => Except.ok bd
      | some p =>
        match Board._validate_name (some p) with
        | none => Except.error nameAErrMsg
        | some va => Except.ok { bd with player_a := va }
    let b2 ← match player_b with
      | none => Except.ok b1
      | some q =>
        match Board._validate_name (some q) with
        | none => Except.error nameBErrMsg
        | some vb => Except.ok { b1 with player_b := vb }
    let b3 := match title with
      | none => b2
      | some t => if t == "" then b2 else { b2 with title := t }
    Except.ok { b3 with message_id := msgAfter fetchOk freshId b3.message_id }

/-- `board_zero_style`: compare `style.lower()` against `"dash"` and
`"zero"`, set `zero_as_dash` accordingly, reject any other token. -/
def board_zero_style (stored : Option Board) (style : String) (fetchOk : Bool)
    (freshId : Int) : Except String Board :=
  match stored with
  | none => .error noBoardMsg
  | some bd =>
    if pyLower style == "dash" then
      .ok { bd with
            zero_as_dash := true,
            message_id := msgAfter fetchOk freshId bd.message_id }
    else if pyLower style == "zero" then
      .ok { bd with
            zero_as_dash := false,
            message_id := msgAfter fetchOk freshId bd.message_id }
    else .error styleErrMsg

/-- Scenario A board: `start("Reo","Haruna","Finals")`, `add(3,1)`,
`add(0,2)`; message id 1. -/
def boardA : Board :=
  { title := "Finals", player_a := "Reo", player_b := "Haruna",
    rounds := [⟨3, 1⟩, ⟨0, 2⟩], message_id := some 1,
    COL_RND := 5, COL_PLY := 10, zero_as_dash := true }

/-- A record with no message reference (fresh `from_dict` of a record
whose `message_id` key is absent). -/
def boardNoMsg : Board :=
  { title := "戦績ボード", player_a := "Reo", player_b := "Haruna",
    rounds := [], message_id := none,
    COL_RND := 5, COL_PLY := 10, zero_as_dash := true }

/-- A record with zero rounds and message id `0` (falsy in Python). -/
def boardZeroRef : Board :=
  { title := "T", player_a := "Reo", player_b := "Haruna",
    rounds := [], message_id := some 0,
    COL_RND := 5, COL_PLY := 10, zero_as_dash := true }

deriving instance DecidableEq for Except

/-- Length of a Python right-justification: padding plus the original. -/
theorem pyRjust_length (w : Int) (s : String) :
    (pyRjust w s).length = (w - (s.length : Int)).toNat + s.length := by
  simp [pyRjust, String.length_append]

/-- Right-justifying a string that fits yields exactly the field width. -/
theorem pyRjust_length_of_le {w : Int} {s : String} (h : (s.length : Int) ≤ w) :
    (pyRjust w s).length = w.toNat := by
  rw [pyRjust_length]; omega

/-- Reading a round dictionary back gives the round it came from. -/
theorem roundOfDict_dictOfRound (r : Round) : roundOfDict (dictOfRound r) = r := by
  cases r; rfl

/-- C8: serialization round-trips losslessly — `from_dict (to_dict bd)`
restores every field of any `Board` (title, players, the rounds sequence
in order, message id, both column-width constants, and `zero_as_dash`),
including records with zero rounds, negative scores, 8-character names
and long titles. -/
theorem from_dict_to_dict_roundtrip (bd : Board) :
    Board.from_dict (Board.to_dict bd) = bd := by
  have hcomp : ∀ rs : List Round, (rs.map dictOfRound).map roundOfDict = rs := by
    intro rs
    rw [List.map_map]
    have : roundOfDict ∘ dictOfRound = id := funext roundOfDict_dictOfRound
    simp [this]
  cases bd with
  | mk t pa pb rs m cr cp z =>
    simp [Board.from_dict, Board.to_dict, hcomp]

/-- C3: the validator maps `None` to `None`, rejects any input containing
a non-ASCII code point (returning `None` regardless of length), and
otherwise returns exactly the first 8 characters of the input — silent
truncation, never rejection, for over-length ASCII names.  Determinism
and totality hold by construction: `Board._validate_name` is a total
Lean function. -/
theorem validate_name_spec :
    Board._validate_name none = none ∧
    (∀ s : String, (∃ c ∈ s.toList, 127 < c.toNat) →
      Board._validate_name (some s) = none) ∧
    (∀ s : String, (∀ c ∈ s.toList, c.toNat ≤ 127) →
      Board._validate_name (some s) = some (String.mk (s.toList.take 8))) := by
  refine ⟨rfl, ?_, ?_⟩
  · intro s hs
    obtain ⟨c, hc, hgt⟩ := hs
    have hfalse : Board._is_ascii s = false := by
      rw [Board._is_ascii, List.all_eq_false]
      exact ⟨c, hc, by simpa using hgt⟩
    simp [Board._validate_name, hfalse]
  · intro s hall
    have htrue : Board._is_ascii s = true := by
      rw [Board._is_ascii, List.all_eq_true]
      intro c hc
      simpa using hall c hc
    simp [Board._validate_name, htrue, pyTake]

/-- Witness for C3 at concrete inputs: a 13-character ASCII name is
truncated to its first 8 characters, and a Japanese name is rejected. -/
theorem validate_name_spec_witness :
    Board._validate_name (some "PlayerOneLong") = some "PlayerOn" ∧
    Board._validate_name (some "日本語") = none := by
  constructor
  · have h := validate_name_spec.2.2 "PlayerOneLong" (by decide)
    rw [h]; decide
  · exact validate_name_spec.2.1 "日本語" (by decide)

/-- C2 counterexample: a stored record (the context key is `Active`)
with no message reference is rejected by `add` even though the claim
asserts `add` succeeds for every `Active` key regardless of whether a
message reference is set. -/
theorem add_active_without_ref_counterexample :
    board_add (some boardNoMsg) 3 1 true 0 = .error startFirstMsg := by
  decide

/-- C2 as amended: `add(a,b)` appends `Round(a,b)` as the new last
element exactly when a record exists and its message reference is truthy
(non-null and nonzero); it is rejected, with the record store unchanged
(the handler returns before any persistence write), when the key is
`Absent` or the stored message reference is `None` or `0`. -/
theorem board_add_spec (stored : Option Board) (a b : Int) (fok : Bool) (fid : Int) :
    (stored = none → board_add stored a b fok fid = .error startFirstMsg) ∧
    (∀ bd : Board, stored = some bd → msgFalsy bd.message_id = true →
      board_add stored a b fok fid = .error startFirstMsg) ∧
    (∀ bd : Board, stored = some bd → msgFalsy bd.message_id = false →
      board_add stored a b fok fid =
        .ok { bd with
              rounds := bd.rounds ++ [⟨a, b⟩],
              message_id := msgAfter fok fid bd.message_id }) := by
  refine ⟨?_, ?_, ?_⟩
  · rintro rfl; rfl
  · rintro bd rfl h; simp [board_add, h]
  · rintro bd rfl h; simp [board_add, h]

/-- Witness for C2 at a concrete input: adding `(7, 2)` to the Scenario A
board appends the round at the end. -/
theorem board_add_spec_witness :
    board_add (some boardA) 7 2 true 0 =
      .ok { title := "Finals", player_a := "Reo", player_b := "Haruna",
            rounds := [⟨3, 1⟩, ⟨0, 2⟩, ⟨7, 2⟩], message_id := some 1,
            COL_RND := 5, COL_PLY := 10, zero_as_dash := true } := by
  have h := (board_add_spec (some boardA) 7 2 true 0).2.2 boardA rfl (by decide)
  rw [h]; decide

/-- Rejection test on a handler result: `true` exactly for `.error`,
i.e. the handler returned early and persisted nothing. -/
def resultRejected (e : Except String Board) : Bool :=
  match e with
  | .error _ => true
  | .ok _ => false

/-- C9: `setZeroStyle` matches its token case-insensitively — any string
whose lowering is `"dash"` sets `zero_as_dash := true`, any string whose
lowering is `"zero"` sets it to `false`, and every other token is
rejected with the record unchanged (the handler returns the error before
any persistence write). -/
theorem zero_style_spec (bd : Board) (s : String) (fok : Bool) (fid : Int) :
    (pyLower s = "dash" → board_zero_style (some bd) s fok fid =
      .ok { bd with
            zero_as_dash := true,
            message_id := msgAfter fok fid bd.message_id }) ∧
    (pyLower s = "zero" → board_zero_style (some bd) s fok fid =
      .ok { bd with
            zero_as_dash := false,
            message_id := msgAfter fok fid bd.message_id }) ∧
    (pyLower s ≠ "dash" → pyLower s ≠ "zero" →
      board_zero_style (some bd) s fok fid = .error styleErrMsg) := by
  refine ⟨?_, ?_, ?_⟩
  · intro h; simp [board_zero_style, h]
  · intro h; simp [board_zero_style, h]
  · intro h1 h2
    have hb1 : (pyLower s == "dash") = false := by simpa using h1
    have hb2 : (pyLower s == "zero") = false := by simpa using h2
    simp [board_zero_style, hb1, hb2]

/-- Witness for C9 at concrete inputs: `"DASH"` and `"Dash"` enable the
dash style, `"ZERO"` disables it, and `"dashes"` is rejected. -/
theorem zero_style_spec_witness :
    board_zero_style (some boardA) "DASH" true 0 =
      .ok { boardA with zero_as_dash := true } ∧
    board_zero_style (some boardA) "Dash" true 0 =
      .ok { boardA with zero_as_dash := true } ∧
    board_zero_style (some boardA) "ZERO" true 0 =
      .ok { boardA with zero_as_dash := false } ∧
    board_zero_style (some boardA) "dashes" true 0 = .error styleErrMsg := by
  refine ⟨?_, ?_, ?_, ?_⟩
  · have h := (zero_style_spec boardA "DASH" true 0).1 (by decide)
    rw [h]; decide
  · have h := (zero_style_spec boardA "Dash" true 0).1 (by decide)
    rw [h]; decide
  · have h := (zero_style_spec boardA "ZERO" true 0).2.1 (by decide)
    rw [h]; decide
  · exact (zero_style_spec boardA "dashes" true 0).2.2 (by decide) (by decide)

/-- C10: a rename whose title argument is the empty string behaves
exactly like a rename with the title absent — the stored title is kept,
while any supplied (valid) player-name fields in the same call are still
applied. -/
theorem rename_empty_title_spec (bd : Board) (pa pb : Option String)
    (fok : Bool) (fid : Int) :
    board_rename (some bd) pa pb (some "") fok fid =
      board_rename (some bd) pa pb none fok fid ∧
    (∀ p va, Board._validate_name (some p) = some va →
      board_rename (some bd) (some p) none (some "") fok fid =
        .ok { bd with
              player_a := va,
              message_id := msgAfter fok fid bd.message_id }) := by
  constructor
  · simp [board_rename]
  · intro p va h
    simp [board_rename, h, Bind.bind, Except.bind]

/-- Witness for C10 at a concrete input: renaming player A to `"Ann"`
with `title = ""` applies the new name and keeps the title `"Finals"`. -/
theorem rename_empty_title_spec_witness :
    board_rename (some boardA) (some "Ann") none (some "") true 0 =
      .ok { title := "Finals", player_a := "Ann", player_b := "Haruna",
            rounds := [⟨3, 1⟩, ⟨0, 2⟩], message_id := some 1,
            COL_RND := 5, COL_PLY := 10, zero_as_dash := true } := by
  have h := (rename_empty_title_spec boardA (some "Ann") none true 0).2 "Ann" "Ann"
    (by decide)
  rw [h]; decide

/-- C4: if any supplied name fails validation — an invalid `player_a`,
or a valid `player_a` together with an invalid `player_b` — the whole
rename is rejected: the handler returns an error before its persistence
write, so no field of the persisted record changes and there is never a
partial rename. -/
theorem rename_invalid_name_rejects (bd : Board) (pa pb title : Option String)
    (fok : Bool) (fid : Int)
    (h : (∃ p, pa = some p ∧ Board._validate_name (some p) = none) ∨
         (∃ q, pb = some q ∧ Board._validate_name (some q) = none)) :
    resultRejected (board_rename (some bd) pa pb title fok fid) = true := by
  rcases h with ⟨p, rfl, hp⟩ | ⟨q, rfl, hq⟩
  · simp [board_rename, hp, resultRejected, Bind.bind, Except.bind]
  · cases pa with
    | none => simp [board_rename, hq, resultRejected, Bind.bind, Except.bind]
    | some p =>
      cases hv : Board._validate_name (some p) with
      | none => simp [board_rename, hv, resultRejected, Bind.bind, Except.bind]
      | some va => simp [board_rename, hv, hq, resultRejected, Bind.bind, Except.bind]

/-- Witness for C4 at a concrete input: `rename(playerA="日本語")` is
rejected on the Scenario A board (Scenario D), and so is a rename whose
`player_a` is valid but whose `player_b` is not. -/
theorem rename_invalid_name_rejects_witness :
    resultRejected (board_rename (some boardA) (some "日本語") none none true 0) = true ∧
    resultRejected (board_rename (some boardA) (some "Ann") (some "ほのか") (some "T") true 0)
      = true := by
  constructor
  · exact rename_invalid_name_rejects boardA (some "日本語") none none true 0
      (Or.inl ⟨"日本語", rfl, by decide⟩)
  · exact rename_invalid_name_rejects boardA (some "Ann") (some "ほのか") (some "T") true 0
      (Or.inr ⟨"ほのか", rfl, by decide⟩)

/-- C6 counterexample: an existing record with zero rounds and message
id `0` does carry a message reference, yet `start` succeeds and silently
overwrites it (Python truthiness treats the id `0` as "no reference"),
contradicting the claim that `start` is rejected whenever the existing
record has a message reference. -/
theorem start_overwrites_zero_ref_counterexample :
    board_start (some boardZeroRef) "Ann" "Bob" none 7 =
      .ok { title := "戦績ボード", player_a := "Ann", player_b := "Bob",
            rounds := [], message_id := some 7,
            COL_RND := 5, COL_PLY := 10, zero_as_dash := true } := by
  decide

/-- C6 as amended: `start(a,b,title?)` is rejected with no record
created or overwritten when either supplied name is invalid; it is
rejected with the existing record unchanged when the existing record has
rounds or a truthy (nonzero) message reference; otherwise — the key is
`Absent`, or the existing record has zero rounds and a `None` or `0`
message reference — it creates a fresh record with empty rounds, the
validated names, default widths and zero-style, the freshly published
message id, and the given title (the default when absent or empty). -/
theorem board_start_spec (existing : Option Board) (pa pb : String)
    (title : Option String) (fid : Int) :
    ((Board._validate_name (some pa) = none ∨ Board._validate_name (some pb) = none) →
      board_start existing pa pb title fid = .error nameErrMsg) ∧
    (∀ va vb, Board._validate_name (some pa) = some va →
      Board._validate_name (some pb) = some vb → activeGuard existing = true →
      board_start existing pa pb title fid = .error alreadyMsg) ∧
    (∀ va vb, Board._validate_name (some pa) = some va →
      Board._validate_name (some pb) = some vb → activeGuard existing = false →
      board_start existing pa pb title fid =
        .ok { title := pyTitleOr title, player_a := va, player_b := vb,
              rounds := [], message_id := some fid,
              COL_RND := 5, COL_PLY := 10, zero_as_dash := true }) := by
  refine ⟨?_, ?_, ?_⟩
  · intro h
    cases hva : Board._validate_name (some pa) with
    | none => simp [board_start, hva]
    | some va =>
      cases hvb : Board._validate_name (some pb) with
      | none => simp [board_start, hva, hvb]
      | some vb => simp_all
  · intro va vb hva hvb hguard
    simp [board_start, hva, hvb, hguard]
  · intro va vb hva hvb hguard
    simp [board_start, hva, hvb, hguard]

/-- Witness for C6 at concrete inputs: starting on an `Absent` key with
valid names creates the fresh record, and starting over the Scenario A
board (which has rounds and a message id) is rejected. -/
theorem board_start_spec_witness :
    board_start none "Reo" "Haruna" (some "Finals") 1 =
      .ok { title := "Finals", player_a := "Reo", player_b := "Haruna",
            rounds := [], message_id := some 1,
            COL_RND := 5, COL_PLY := 10, zero_as_dash := true } ∧
    board_start (some boardA) "Reo" "Haruna" none 2 = .error alreadyMsg := by
  constructor
  · have h := (board_start_spec none "Reo" "Haruna" (some "Finals") 1).2.2 "Reo" "Haruna"
      (by decide) (by decide) (by decide)
    rw [h]; decide
  · exact (board_start_spec (some boardA) "Reo" "Haruna" none 2).2.1 "Reo" "Haruna"
      (by decide) (by decide) (by decide)

/-- C7: `edit(roundNo, a?, b?)` on a record with `1 ≤ roundNo ≤
len(rounds)` overwrites exactly the supplied score fields of that round
(an unsupplied field keeps its old value, every other round keeps its
position and value); a `roundNo` outside that range is rejected with the
message naming the requested round and the current maximum round, and an
error result means the handler wrote nothing, so the record is left
completely unchanged; with no rounds it is rejected. -/
theorem board_edit_spec (bd : Board) (rn : Int) (a b : Option Int)
    (fok : Bool) (fid : Int) :
    (bd.rounds = [] → board_edit (some bd) rn a b fok fid = .error noBoardMsg) ∧
    (bd.rounds ≠ [] → (rn < 1 ∨ (bd.rounds.length : Int) < rn) →
      board_edit (some bd) rn a b fok fid = .error (rangeMsg rn bd.rounds.length)) ∧
    (∀ r : Round, 1 ≤ rn → rn ≤ (bd.rounds.length : Int) →
      bd.rounds.get? (rn - 1).toNat = some r →
      board_edit (some bd) rn a b fok fid =
        .ok { bd with
              rounds := bd.rounds.set (rn - 1).toNat
                { a := a.getD r.a, b := b.getD r.b },
              message_id := msgAfter fok fid bd.message_id } ∧
      (∀ j : Nat, j ≠ (rn - 1).toNat →
        (bd.rounds.set (rn - 1).toNat { a := a.getD r.a, b := b.getD r.b }).get? j =
          bd.rounds.get? j) ∧
      (bd.rounds.set (rn - 1).toNat { a := a.getD r.a, b := b.getD r.b }).get?
          (rn - 1).toNat = some { a := a.getD r.a, b := b.getD r.b }) := by
  refine ⟨?_, ?_, ?_⟩
  · intro h
    simp [board_edit, h]
  · intro hne hrange
    have hemp : bd.rounds.isEmpty = false := by
      cases hrs : bd.rounds with
      | nil => exact absurd hrs hne
      | cons x xs => rfl
    simp [board_edit, hemp, hrange]
  · intro r h1 h2 hr
    have hidx : (rn - 1).toNat < bd.rounds.length := by omega
    have hemp : bd.rounds.isEmpty = false := by
      cases hrs : bd.rounds with
      | nil => rw [hrs] at hidx; simp at hidx
      | cons x xs => rfl
    have hcond : ¬ (rn < 1 ∨ (bd.rounds.length : Int) < rn) := by omega
    have hget : bd.rounds.get ⟨(rn - 1).toNat, hidx⟩ = r := by
      have := List.get?_eq_get hidx
      rw [this] at hr
      exact Option.some.inj hr
    refine ⟨?_, ?_, ?_⟩
    · have key : board_edit (some bd) rn a b fok fid =
          .ok { bd with
                rounds := bd.rounds.set (rn - 1).toNat
                  { a := a.getD (bd.rounds.get ⟨(rn - 1).toNat, hidx⟩).a,
                    b := b.getD (bd.rounds.get ⟨(rn - 1).toNat, hidx⟩).b },
                message_id := msgAfter fok fid bd.message_id } := by
        simp [board_edit, hemp, hcond]
      rw [key, hget]
    · intro j hj
      simp only [List.get?_eq_getElem?]
      exact List.getElem?_set_ne (by omega)
    · simp only [List.get?_eq_getElem?]
      exact List.getElem?_set_self hidx

/-- Witness for C7 at concrete inputs: `edit(2, b=9)` on the Scenario A
board replaces round 2 by `(0, 9)` keeping its `a` field and round 1
untouched, and `edit(5, a=1)` is rejected naming rounds 5 and 2. -/
theorem board_edit_spec_witness :
    board_edit (some boardA) 2 none (some 9) true 0 =
      .ok { title := "Finals", player_a := "Reo", player_b := "Haruna",
            rounds := [⟨3, 1⟩, ⟨0, 9⟩], message_id := some 1,
            COL_RND := 5, COL_PLY := 10, zero_as_dash := true } ∧
    board_edit (some boardA) 5 (some 1) none true 0 =
      .error (rangeMsg 5 2) := by
  constructor
  · have h := ((board_edit_spec boardA 2 none (some 9) true 0).2.2 ⟨0, 2⟩
      (by decide) (by decide) (by decide)).1
    rw [h]; decide
  · have h := (board_edit_spec boardA 5 (some 1) none true 0).2.1
      (by decide) (by decide)
    rw [h]; decide

/-- C1 counterexample: on the Scenario A record the totals are equal
(diff = 0), the left Δ cell is the signed `+0` right-justified in 9
characters plus a trailing space — but the right Δ cell is the same
`+0` cell, not the claimed literal `-0` (the negation of the integer
zero is zero, and the signed format renders it `+0`). -/
theorem delta_zero_right_cell_counterexample :
    boardA.totals.1 - boardA.totals.2 = 0 ∧
    boardA.fmt_score_signed (boardA.totals.1 - boardA.totals.2) = pyRjust 9 "+0" ++ " " ∧
    boardA.fmt_score_signed (-(boardA.totals.1 - boardA.totals.2)) = pyRjust 9 "+0" ++ " " ∧
    boardA.fmt_score_signed (-(boardA.totals.1 - boardA.totals.2)) ≠ pyRjust 9 "-0" ++ " " := by
  refine ⟨by decide, by decide, by decide, by decide⟩

/-- C1 as amended: for every record with the default column widths whose
two totals are equal, BOTH cells of the rendered difference row contain
the literal signed text `+0`, right-justified within 9 characters plus
one trailing space; the `+` sign character is retained literally in both
cells and never collapsed to a single `0` (the right cell is `+0`
rather than `-0`, since negating the integer zero yields zero). -/
theorem delta_row_zero_renders_plus_zero (bd : Board)
    (hR : bd.COL_RND = 5) (hP : bd.COL_PLY = 10)
    (h : bd.totals.1 = bd.totals.2) :
    bd.fmt_score_signed (bd.totals.1 - bd.totals.2) = "       +0 " ∧
    bd.fmt_score_signed (-(bd.totals.1 - bd.totals.2)) = "       +0 " ∧
    bd.deltaLine = "|   Δ |       +0 |       +0 |" := by
  have hz : bd.totals.1 - bd.totals.2 = 0 := sub_eq_zero_of_eq h
  refine ⟨?_, ?_, ?_⟩
  · rw [Board.fmt_score_signed, hz, hP]; decide
  · rw [Board.fmt_score_signed, hz, neg_zero, hP]; decide
  · rw [Board.deltaLine, Board.fmt_rnd, Board.fmt_score_signed, Board.fmt_score_signed,
      hz, neg_zero, hR, hP]
    decide

/-- Witness for C1 at a concrete input: the Scenario A record has equal
totals and its Δ row renders `+0` in both cells. -/
theorem delta_row_zero_renders_plus_zero_witness :
    boardA.deltaLine = "|   Δ |       +0 |       +0 |" :=
  (delta_row_zero_renders_plus_zero boardA (by decide) (by decide) (by decide)).2.2

/-- Length of a name cell is always 10: the ASCII-filtered name is cut
to at most 8 characters before right-justification in 8, and one space
is added on each side. -/
theorem fmt_name_length (name : String) : (Board.fmt_name name).length = 10 := by
  rw [Board.fmt_name]
  have htake : (pyTake 8 (String.mk (name.toList.filter (fun c => c.toNat ≤ 127)))).length ≤ 8 := by
    simp [pyTake]
  rw [String.length_append, String.length_append,
    pyRjust_length_of_le (by exact_mod_cast htake)]
  rfl

/-- Length of a horizontal rule at the default widths. -/
theorem hline_length (bd : Board) (hR : bd.COL_RND = 5) (hP : bd.COL_PLY = 10) :
    bd.hline.length = 29 := by
  rw [Board.hline, hR, hP]
  decide

/-- Length of a RND cell at the default width, for text of at most 4
characters. -/
theorem fmt_rnd_length (bd : Board) (hR : bd.COL_RND = 5) (t : String)
    (ht : t.length ≤ 4) : (bd.fmt_rnd t).length = 5 := by
  rw [Board.fmt_rnd, hR, String.length_append,
    pyRjust_length_of_le (by omega)]
  rfl

/-- Length of an unsigned score cell at the default width, for score
text of at most 9 characters. -/
theorem fmt_score_val_length (bd : Board) (hP : bd.COL_PLY = 10) (x : Int)
    (hx : (bd.scoreText x).length ≤ 9) : (bd.fmt_score_val x).length = 10 := by
  rw [Board.fmt_score_val, hP, String.length_append,
    pyRjust_length_of_le (by omega)]
  rfl

/-- Length of a signed score cell at the default width, for signed text
of at most 9 characters. -/
theorem fmt_score_signed_length (bd : Board) (hP : bd.COL_PLY = 10) (x : Int)
    (hx : (pySignedFmt x).length ≤ 9) : (bd.fmt_score_signed x).length = 10 := by
  rw [Board.fmt_score_signed, hP, String.length_append,
    pyRjust_length_of_le (by omega)]
  rfl

/-- Length of the header line at the default widths. -/
theorem headerLine_length (bd : Board) (hR : bd.COL_RND = 5) :
    bd.headerLine.length = 29 := by
  rw [Board.headerLine]
  simp only [String.length_append, fmt_name_length,
    fmt_rnd_length bd hR "RND" (by decide)]
  rfl

/-- Length of one round row at the default widths, for a round number of
at most 4 characters and score texts of at most 9 characters. -/
theorem roundLine_length (bd : Board) (hR : bd.COL_RND = 5) (hP : bd.COL_PLY = 10)
    (i : Nat) (hi : (toString i).length ≤ 4) (r : Round)
    (ha : (bd.scoreText r.a).length ≤ 9) (hb : (bd.scoreText r.b).length ≤ 9) :
    (bd.roundLine i r).length = 29 := by
  rw [Board.roundLine]
  simp only [String.length_append, fmt_rnd_length bd hR _ hi,
    fmt_score_val_length bd hP _ ha, fmt_score_val_length bd hP _ hb]
  rfl

/-- Length of every round row produced by `roundLines`, by induction on
the round list. -/
theorem roundLines_length (bd : Board) (hR : bd.COL_RND = 5) (hP : bd.COL_PLY = 10) :
    ∀ (rs : List Round) (i : Nat),
      (∀ j : Nat, i ≤ j → j < i + rs.length → (toString j).length ≤ 4) →
      (∀ r ∈ rs, (bd.scoreText r.a).length ≤ 9 ∧ (bd.scoreText r.b).length ≤ 9) →
      ∀ line ∈ bd.roundLines i rs, line.length = 29
  | [], _, _, _ => by simp [Board.roundLines]
  | r :: rs, i, hj, hr => by
    intro line hline
    rw [Board.roundLines] at hline
    rcases List.mem_cons.mp hline with rfl | hmem
    · exact roundLine_length bd hR hP i (hj i le_rfl (by simp)) r
        (hr r (List.mem_cons_self r rs)).1 (hr r (List.mem_cons_self r rs)).2
    · exact roundLines_length bd hR hP rs (i + 1)
        (fun j h1 h2 => hj j (by omega) (by simpa [Nat.add_assoc, Nat.add_comm] using
          (by omega : j < i + (rs.length + 1))))
        (fun x hx => hr x (List.mem_cons_of_mem r hx)) line hmem

/-- C5: for every record at the default column widths whose round
numbers fit in 4 characters and whose rendered score texts (round
cells, totals cells, and the two signed difference cells) fit in 9
characters, every line of the rendered table body — rules, header,
round rows, totals row and difference row — has the same character
length `RND_WIDTH + 2 * PLAYER_WIDTH + 4 = 5 + 20 + 4 = 29`, counting
the four `|` or `+` separators. -/
theorem render_width_invariant (bd : Board)
    (hR : bd.COL_RND = 5) (hP : bd.COL_PLY = 10)
    (hrnd : ∀ i : Nat, 1 ≤ i → i ≤ bd.rounds.length → (toString i).length ≤ 4)
    (hsc : ∀ r ∈ bd.rounds, (bd.scoreText r.a).length ≤ 9 ∧ (bd.scoreText r.b).length ≤ 9)
    (hta : (bd.scoreText bd.totals.1).length ≤ 9)
    (htb : (bd.scoreText bd.totals.2).length ≤ 9)
    (hd1 : (pySignedFmt (bd.totals.1 - bd.totals.2)).length ≤ 9)
    (hd2 : (pySignedFmt (-(bd.totals.1 - bd.totals.2))).length ≤ 9) :
    ∀ line ∈ bd.tableLines, line.length = 29 := by
  intro line hline
  rw [Board.tableLines] at hline
  simp only [List.mem_append, List.mem_cons, List.not_mem_nil, or_false] at hline
  rcases hline with ((rfl | rfl | rfl) | hmem) | (rfl | rfl | rfl | rfl)
  · exact hline_length bd hR hP
  · exact headerLine_length bd hR
  · exact hline_length bd hR hP
  · exact roundLines_length bd hR hP bd.rounds 1
      (fun j h1 h2 => hrnd j h1 (by omega)) hsc line hmem
  · exact hline_length bd hR hP
  · rw [Board.totalsLine]
    simp only [String.length_append, fmt_rnd_length bd hR "Σ" (by decide),
      fmt_score_val_length bd hP _ hta, fmt_score_val_length bd hP _ htb]
    rfl
  · rw [Board.deltaLine]
    simp only [String.length_append, fmt_rnd_length bd hR "Δ" (by decide),
      fmt_score_signed_length bd hP _ hd1, fmt_score_signed_length bd hP _ hd2]
    rfl
  · exact hline_length bd hR hP

/-- Witness for C5 at a concrete input: the rule, header, first round
row, totals row and difference row of the Scenario A table are all 29
characters long. -/
theorem render_width_invariant_witness :
    boardA.hline.length = 29 ∧
    boardA.headerLine.length = 29 ∧
    (boardA.roundLine 1 ⟨3, 1⟩).length = 29 ∧
    boardA.totalsLine.length = 29 ∧
    boardA.deltaLine.length = 29 := by
  have h := render_width_invariant boardA (by decide) (by decide)
    (by decide) (by decide) (by decide) (by decide) (by decide) (by decide)
  exact ⟨h boardA.hline (by decide), h boardA.headerLine (by decide),
    h (boardA.roundLine 1 ⟨3, 1⟩) (by decide), h boardA.totalsLine (by decide),
    h boardA.deltaLine (by decide)⟩
